import Mathlib

/-!
# Verification of the Project-Green frontend against its specification

This file shallowly embeds the JavaScript/React code of the Project-Green
repository (a React energy-management frontend) in Lean 4 and proves, or
refutes, the frozen claims about it.

Modelling conventions:
* JavaScript strings are Lean `String`s; the character-level operations the
  code uses (`trim`, `length`, regular-expression tests) are re-implemented
  over `List Char` following the ECMAScript semantics the code relies on
  (ASCII inputs throughout).
* `localStorage` is an association list `List (String × String)`;
  `getItem` is first-match lookup returning `Option String`, a missing key
  being JavaScript `null`.
* JavaScript truthiness of a `getItem` result: `null` and `""` are falsy,
  every other string is truthy.
* Components that render either their children or a `<Navigate to=…/>`
  element are modelled by an inductive `RenderResult`.
* A `fetch`/`axios` call is a `Request` value; the network's behaviour is an
  explicit argument (`Response`, or an abstract success/failure outcome), and
  an event handler is a pure function from its inputs and the network
  outcome to the requests it sends and the state it leaves behind.
-/

/-- JavaScript string truthiness of a `localStorage.getItem` result:
`null` (here `none`) and the empty string are falsy. -/
def jsTruthy : Option String → Bool
  | none => false
  | some s => s ≠ ""

/-- ECMAScript whitespace for `String.prototype.trim` (the characters that
matter for this codebase: space, tab, newline, carriage return, form feed,
vertical tab). -/
def jsIsWhitespace (c : Char) : Bool :=
  c = ' ' || c = '\t' || c = '\n' || c = '\r' || c = '\x0c' || c = '\x0b'

/-- `String.prototype.trim`: strip leading and trailing whitespace. -/
def jsTrimList (cs : List Char) : List Char :=
  ((cs.dropWhile jsIsWhitespace).reverse.dropWhile jsIsWhitespace).reverse

/-- `String.prototype.trim` on Lean strings. -/
def jsTrim (s : String) : String :=
  String.mk (jsTrimList s.toList)

/-- JavaScript `string.length` (all strings in play are ASCII, so the
UTF-16 code-unit count is the character count). -/
def jsLength (s : String) : Nat :=
  s.toList.length

/-- The regular expression `^[A-Za-z0-9]+$` used by
`PropertyManagerDashboard.validate` for the provider code. -/
def isAsciiAlphanum (c : Char) : Bool :=
  ('A' ≤ c && c ≤ 'Z') || ('a' ≤ c && c ≤ 'z') || ('0' ≤ c && c ≤ '9')

/-- `/^[A-Za-z0-9]+$/.test s`. -/
def alphanumRegexTest (s : String) : Bool :=
  s.toList ≠ [] && s.toList.all isAsciiAlphanum

/-- `/^\S+@\S+\.\S+$/.test s` (the e-mail check of `Login.jsx` and
`Register.jsx`).  A string matches iff it contains no whitespace and can be
split as `a ++ "@" ++ b ++ "." ++ c` with `a`, `b`, `c` non-empty; since
`@` and `.` are themselves non-whitespace this holds iff some `@` occurs at
an index `i ≥ 1` and some `.` at an index `j` with `i + 1 < j` and at least
one character after `j`. -/
def emailRegexTest (s : String) : Bool :=
  let cs := s.toList
  cs.all (fun c => ¬ jsIsWhitespace c) &&
    (List.range cs.length).any (fun i =>
      1 ≤ i && cs.getD i ' ' = '@' &&
        (List.range cs.length).any (fun j =>
          i + 1 < j && j + 1 < cs.length && cs.getD j ' ' = '.'))

/-! ## The browser's local storage -/

/-- A `localStorage` state: an association list from keys to stored
strings. -/
def Storage := List (String × String)

/-- `localStorage.getItem key`: `none` models JavaScript `null`. -/
def Storage.getItem (st : Storage) (key : String) : Option String :=
  match st with
  | [] => none
  | (k, v) :: rest => if k = key then some v else Storage.getItem rest key

/-- `localStorage.setItem key value` (replace any previous binding). -/
def Storage.setItem (st : Storage) (key value : String) : Storage :=
  (key, value) :: (st : List (String × String)).filter (fun kv => kv.1 ≠ key)

/-- `localStorage.clear()`. -/
def Storage.clear (_ : Storage) : Storage := ([] : List (String × String))

/-! ## `authService.js` (green-energy-frontend/src/services/authService.js) -/

/-- `getToken()`: `localStorage.getItem('access_token')`. -/
def getToken (st : Storage) : Option String :=
  st.getItem "access_token"

/-- `isAuthenticated()`: `!!getToken()`. -/
def isAuthenticated (st : Storage) : Bool :=
  jsTruthy (getToken st)

/-- `saveToken(token)`: `localStorage.setItem('access_token', token)`. -/
def saveToken (st : Storage) (token : String) : Storage :=
  st.setItem "access_token" token

/-! ## `RoleProtectedRoute` (components/RoleProtectedRoute.jsx, the version
imported by App.jsx) -/

/-- What a guard component renders: either its children or a
`<Navigate to=path replace />`. -/
inductive RenderResult where
  | children
  | navigate (path : String)
deriving DecidableEq, Repr

/-- `RoleProtectedRoute({ allowedRole, children })`, translated branch by
branch from the source:
if `!isAuthenticated()` navigate to `/login`; else read
`localStorage.getItem("userRole")`; if falsy navigate to `/role`; if it
differs from `allowedRole` navigate to `/homeowner-dashboard` when it is
`"Homeowner"`, to `/manager-dashboard` when it is `"PropertyManager"`, and
to `/login` otherwise; else render the children. -/
def RoleProtectedRoute (st : Storage) (allowedRole : String) : RenderResult :=
  if ¬ isAuthenticated st then
    .navigate "/login"
  else if ¬ jsTruthy (st.getItem "userRole") then
    .navigate "/role"
  else if st.getItem "userRole" ≠ some allowedRole then
    if st.getItem "userRole" = some "Homeowner" then
      .navigate "/homeowner-dashboard"
    else if st.getItem "userRole" = some "PropertyManager" then
      .navigate "/manager-dashboard"
    else
      .navigate "/login"
  else
    .children

/-- C1 -- For every `allowedRole` and storage state, `RoleProtectedRoute`
renders its children iff an access token is stored (present and non-empty)
and the stored `userRole` equals `allowedRole`; otherwise it redirects to
`/login` when no token is stored, to `/role` when a token is stored but no
`userRole` is set, to `/homeowner-dashboard` when the stored role is
`"Homeowner"` and differs from `allowedRole`, to `/manager-dashboard` when
it is `"PropertyManager"` and differs from `allowedRole`, and to `/login`
for any other set role string. -/
theorem C1_role_protected_route_characterisation
    (st : Storage) (allowedRole : String) :
    (RoleProtectedRoute st allowedRole = .children ↔
       isAuthenticated st = true ∧ jsTruthy (st.getItem "userRole") = true ∧
         st.getItem "userRole" = some allowedRole) ∧
    (isAuthenticated st = false →
       RoleProtectedRoute st allowedRole = .navigate "/login") ∧
    (isAuthenticated st = true → jsTruthy (st.getItem "userRole") = false →
       RoleProtectedRoute st allowedRole = .navigate "/role") ∧
    (isAuthenticated st = true → st.getItem "userRole" = some "Homeowner" →
       allowedRole ≠ "Homeowner" →
       RoleProtectedRoute st allowedRole = .navigate "/homeowner-dashboard") ∧
    (isAuthenticated st = true →
       st.getItem "userRole" = some "PropertyManager" →
       allowedRole ≠ "PropertyManager" →
       RoleProtectedRoute st allowedRole = .navigate "/manager-dashboard") ∧
    (∀ r : String, isAuthenticated st = true → st.getItem "userRole" = some r →
       r ≠ "" → r ≠ allowedRole → r ≠ "Homeowner" → r ≠ "PropertyManager" →
       RoleProtectedRoute st allowedRole = .navigate "/login") := by
  unfold RoleProtectedRoute
  generalize isAuthenticated st = a
  generalize st.getItem "userRole" = o
  cases a with
  | false => simp [jsTruthy]
  | true =>
    cases o with
    | none => simp [jsTruthy]
    | some r =>
      by_cases hr0 : r = ""
      · subst hr0; simp [jsTruthy]
      · by_cases hra : r = allowedRole
        · subst hra; simp [jsTruthy, hr0]
        · by_cases hrh : r = "Homeowner"
          · subst hrh
            simp [jsTruthy, hr0, hra, Ne.symm (Ne.intro hra)]
          · by_cases hrp : r = "PropertyManager"
            · subst hrp
              simp [jsTruthy, hr0, hra, Ne.symm (Ne.intro hra)]
            · simp [jsTruthy, hr0, hra, hrh, hrp]

/-- Witness for C1: with `access_token ↦ "tok"` and `userRole ↦ "Homeowner"`
stored, the guard for `allowedRole = "PropertyManager"` redirects to
`/homeowner-dashboard`, and the guard for `"Homeowner"` renders its
children. -/
theorem C1_role_protected_route_witness :
    RoleProtectedRoute
        [("access_token", "tok"), ("userRole", "Homeowner")] "PropertyManager"
      = .navigate "/homeowner-dashboard" ∧
    RoleProtectedRoute
        [("access_token", "tok"), ("userRole", "Homeowner")] "Homeowner"
      = .children := by
  constructor
  · exact (C1_role_protected_route_characterisation
      [("access_token", "tok"), ("userRole", "Homeowner")]
      "PropertyManager").2.2.2.1 (by decide) (by decide) (by decide)
  · exact ((C1_role_protected_route_characterisation
      [("access_token", "tok"), ("userRole", "Homeowner")]
      "Homeowner").1).mpr ⟨by decide, by decide, by decide⟩

/-! ## Requests and responses

A `fetch`/`axios` call is represented by the data the code puts into it; the
network's reply is an explicit `Response` argument. -/

/-- A JSON value, as far as this codebase produces or consumes them. -/
inductive JsValue where
  | str (s : String)
  | num (n : Int)
  | jsbool (b : Bool)
  | null
deriving DecidableEq, Repr

/-- JavaScript truthiness of a JSON value. -/
def jsvTruthy : JsValue → Bool
  | .str s => s ≠ ""
  | .num n => n ≠ 0
  | .jsbool b => b
  | .null => false

/-- JavaScript string conversion of a JSON value (as used when a value is
placed into an `Error` message). -/
def jsvToString : JsValue → String
  | .str s => s
  | .num n => toString n
  | .jsbool b => if b then "true" else "false"
  | .null => "null"

/-- The body of an outgoing request. -/
inductive RequestBody where
  /-- No body. -/
  | empty
  /-- A `URLSearchParams` form-urlencoded body: the appended
  field/value pairs in order. -/
  | form (fields : List (String × String))
  /-- A JSON object body. -/
  | json (fields : List (String × JsValue))
deriving DecidableEq, Repr

/-- An outgoing HTTP request as the code assembles it. -/
structure Request where
  method : String
  url : String
  contentType : Option String := none
  authBearer : Option String := none
  body : RequestBody := .empty
deriving DecidableEq, Repr

/-- First-match lookup in a JSON object. -/
def jsonLookup (fields : List (String × JsValue)) (key : String) :
    Option JsValue :=
  match fields with
  | [] => none
  | (k, v) :: rest => if k = key then some v else jsonLookup rest key

/-- An HTTP response: `ok` is `response.ok`; `jsonBody` is the result of
`response.json()`, `none` meaning the body does not parse as JSON (the
promise rejects). -/
structure Response where
  ok : Bool
  jsonBody : Option (List (String × JsValue)) := none
deriving DecidableEq, Repr

/-! ## The `localStorage` access inventory (claim C2)

Every `localStorage` access in the repository's source, transcribed one by
one (comments excluded).  `key = none` marks a wholesale
`localStorage.clear()`. -/

/-- The kind of a `localStorage` access. -/
inductive LSOp where
  | read
  | write
  | remove
  | clearAll
deriving DecidableEq, Repr

/-- One `localStorage` access site in the source. -/
structure LSAccess where
  site : String
  op : LSOp
  key : Option String
deriving DecidableEq, Repr

/-- All `localStorage` accesses in the repository:
* frontend/src/pages/UpdateProperty.jsx `handleSubmit`: reads `token`;
* green-energy-frontend/src/services/PropertyServices.js header builder:
  reads `access_token`;
* green-energy-frontend/src/services/authService.js `saveToken` /
  `getToken` / `clearToken`: write / read / remove `access_token`;
* green-energy-frontend/src/pages/Manager.jsx `DailyEnergy`: reads
  `access_token` and calls `clear()` on a 401/403;
* green-energy-frontend/src/pages/Manager.jsx `HomeownerDashboard`: reads
  `userRole`, `handleLogout` calls `clear()`;
* green-energy-frontend/src/pages/SelectRole.jsx `handleSelect`: reads
  `access_token`, writes `userRole`, calls `clear()` in its catch block;
  the second `SelectRole` version writes `userRole`;
* green-energy-frontend/src/pages/Login.jsx `checkUserRole`: reads
  `access_token`, writes `userRole`;
* the mock auth service (unnamed file, `getSession` / `logout` /
  `isAuthenticated`): reads `accessToken` and `userInfo`, removes both;
* `RoleProtectedRoute` (both versions): reads `userRole` / `role`;
* the standalone `PropertyManagerDashboard` page (unnamed file): reads
  `userRole`, `handleLogout` calls `clear()`. -/
def localStorageAccesses : List LSAccess :=
  [ ⟨"UpdateProperty.handleSubmit", .read, some "token"⟩,
    ⟨"PropertyServices.headers", .read, some "access_token"⟩,
    ⟨"authService.saveToken", .write, some "access_token"⟩,
    ⟨"authService.getToken", .read, some "access_token"⟩,
    ⟨"authService.clearToken", .remove, some "access_token"⟩,
    ⟨"Manager.DailyEnergy.effect", .read, some "access_token"⟩,
    ⟨"Manager.DailyEnergy.on401", .clearAll, none⟩,
    ⟨"Manager.HomeownerDashboard", .read, some "userRole"⟩,
    ⟨"Manager.HomeownerDashboard.handleLogout", .clearAll, none⟩,
    ⟨"SelectRole.handleSelect.token", .read, some "access_token"⟩,
    ⟨"SelectRole.handleSelect.setRole", .write, some "userRole"⟩,
    ⟨"SelectRole.handleSelect.catch", .clearAll, none⟩,
    ⟨"SelectRole.v2.handleSelect", .write, some "userRole"⟩,
    ⟨"Login.checkUserRole.token", .read, some "access_token"⟩,
    ⟨"Login.checkUserRole.setRole", .write, some "userRole"⟩,
    ⟨"mockAuth.getSession.token", .read, some "accessToken"⟩,
    ⟨"mockAuth.getSession.userInfo", .read, some "userInfo"⟩,
    ⟨"mockAuth.logout.token", .remove, some "accessToken"⟩,
    ⟨"mockAuth.logout.userInfo", .remove, some "userInfo"⟩,
    ⟨"mockAuth.isAuthenticated", .read, some "accessToken"⟩,
    ⟨"RoleProtectedRoute", .read, some "userRole"⟩,
    ⟨"RoleProtectedRoute.v2", .read, some "role"⟩,
    ⟨"PropertyManagerDashboard.unnamed", .read, some "userRole"⟩,
    ⟨"PropertyManagerDashboard.unnamed.handleLogout", .clearAll, none⟩ ]

/-- Keys under which an authentication token is persisted. -/
def tokenKeys : List String := ["access_token", "accessToken", "token"]

/-- Keys under which a role label is persisted. -/
def roleKeys : List String := ["userRole", "role"]

/-- C2 (counterexample) -- the claim that the only persisted client-side
entities are an authentication token and a role label is false: the mock
auth service's `getSession` reads the key `userInfo`, which is neither a
token key nor a role key (it holds a JSON-serialised user object). -/
theorem C2_counterexample_userinfo_key :
    (⟨"mockAuth.getSession.userInfo", .read, some "userInfo"⟩ : LSAccess)
        ∈ localStorageAccesses ∧
    "userInfo" ∉ tokenKeys ++ roleKeys := by
  decide

/-- C2 (amended) -- every keyed `localStorage` access in the source touches
an authentication-token key (`access_token` / `accessToken` / `token`), a
role-label key (`userRole` / `role`), or the mock auth service's serialised
user-info object (`userInfo`); the only accesses without a key are
wholesale `localStorage.clear()` calls. -/
theorem C2_amended_storage_key_inventory :
    localStorageAccesses.all (fun a =>
      match a.key with
      | some k => decide (k ∈ tokenKeys ++ roleKeys ++ ["userInfo"])
      | none => a.op == .clearAll) = true := by
  decide

/-! ## `loginUser` (green-energy-frontend/src/services/authService.js) -/

/-- The request `loginUser(email, password)` assembles: a POST to
`API_BASE_URL + "/auth/login"` with a form-urlencoded `URLSearchParams`
body to which `username` (carrying the e-mail) and `password` are appended,
in that order.  `base` is `API_BASE_URL`
(`import.meta.env.VITE_API_BASE_URL || "http://localhost:8000"`). -/
def loginUserRequest (base email password : String) : Request :=
  { method := "POST"
    url := base ++ "/auth/login"
    contentType := some "application/x-www-form-urlencoded"
    body := .form [("username", email), ("password", password)] }

/-- `loginUser(email, password)` given the network's `Response`: the single
request it sends, paired with its result -- the parsed JSON body when
`response.ok`, otherwise a thrown `Error` whose message is
`errorData.detail || 'Login failed'`, where `errorData` is the parsed error
body or `{}` when the body does not parse. -/
def loginUser (base email password : String) (resp : Response) :
    Request × Except String (List (String × JsValue)) :=
  (loginUserRequest base email password,
    if resp.ok then
      match resp.jsonBody with
      | some j => .ok j
      | none => .error "SyntaxError"
    else
      match jsonLookup (resp.jsonBody.getD []) "detail" with
      | some v => if jsvTruthy v then .error (jsvToString v)
                  else .error "Login failed"
      | none => .error "Login failed")

/-- The list of requests a `loginUser` call sends. -/
def loginUserTrace (base email password : String) : List Request :=
  [loginUserRequest base email password]

/-- C3 -- `loginUser` sends exactly one POST request, to the `/auth/login`
endpoint, with a form-urlencoded body whose `username` field carries the
e-mail and whose `password` field carries the password; on an ok response
it returns the parsed JSON body, and on a non-ok response it throws an
error carrying the response's `detail` field, or the generic message
`"Login failed"` when no detail can be parsed out of the body. -/
theorem C3_login_user_request_and_result
    (base email password : String) (resp : Response) :
    (loginUserTrace base email password).length = 1 ∧
    (loginUserTrace base email password)
      = [(loginUser base email password resp).1] ∧
    (loginUser base email password resp).1.method = "POST" ∧
    (loginUser base email password resp).1.url = base ++ "/auth/login" ∧
    (loginUser base email password resp).1.contentType
      = some "application/x-www-form-urlencoded" ∧
    (loginUser base email password resp).1.body
      = .form [("username", email), ("password", password)] ∧
    (∀ j, resp.ok = true → resp.jsonBody = some j →
      (loginUser base email password resp).2 = .ok j) ∧
    (∀ d : String, resp.ok = false →
      jsonLookup (resp.jsonBody.getD []) "detail" = some (.str d) → d ≠ "" →
      (loginUser base email password resp).2 = .error d) ∧
    (resp.ok = false → jsonLookup (resp.jsonBody.getD []) "detail" = none →
      (loginUser base email password resp).2 = .error "Login failed") ∧
    (resp.ok = false → resp.jsonBody = none →
      (loginUser base email password resp).2 = .error "Login failed") := by
  refine ⟨rfl, rfl, rfl, rfl, rfl, rfl, ?_, ?_, ?_, ?_⟩
  · intro j hok hj
    simp [loginUser, hok, hj]
  · intro d hok hd hne
    simp [loginUser, hok, hd, jsvTruthy, hne, jsvToString]
  · intro hok hd
    simp [loginUser, hok, hd]
  · intro hok hb
    simp [loginUser, hok, hb, jsonLookup]

/-- Witness for C3: a concrete failed login whose error body is
`{"detail": "Incorrect email or password"}` throws that detail, and a
concrete ok response returns its body. -/
theorem C3_login_user_witness :
    (loginUser "http://localhost:8000" "a@b.c" "pw"
        ⟨false, some [("detail", .str "Incorrect email or password")]⟩).2
      = .error "Incorrect email or password" ∧
    (loginUser "http://localhost:8000" "a@b.c" "pw"
        ⟨true, some [("access_token", .str "tok"),
                     ("token_type", .str "bearer")]⟩).2
      = .ok [("access_token", .str "tok"), ("token_type", .str "bearer")] := by
  constructor
  · exact (C3_login_user_request_and_result "http://localhost:8000" "a@b.c"
      "pw" ⟨false, some [("detail", .str "Incorrect email or password")]⟩
      ).2.2.2.2.2.2.2.1 "Incorrect email or password" rfl (by decide)
      (by decide)
  · exact (C3_login_user_request_and_result "http://localhost:8000" "a@b.c"
      "pw" ⟨true, some [("access_token", .str "tok"),
                        ("token_type", .str "bearer")]⟩
      ).2.2.2.2.2.2.1 _ rfl rfl

/-! ## `TariffOption` (green-energy-frontend/src/pages/TariffOptions.jsx) -/

/-- A tariff as the tariff page consumes it (the fields `handleConfirm`
and the success render actually use). -/
structure Tariff where
  id : Int
  name : String
deriving DecidableEq, Repr

/-- The request `handleConfirm` sends for the selected tariff:
`axios.post("/api/user/teriff", {tariffId: selectedTariff.id})` -- note the
misspelled path segment `teriff` in the source (which the repository's own
unit test also asserts). -/
def handleConfirmRequest (t : Tariff) : Request :=
  { method := "POST"
    url := "/api/user/teriff"
    body := .json [("tariffId", .num t.id)] }

/-- `handleConfirm()` with a selected tariff, given whether the POST
succeeds: the request sent and the `alert` text shown.  On success the
alert is the single-quoted literal of the source (no template
interpolation); on failure it is `"Failed to save your selection"`. -/
def handleConfirm (t : Tariff) (postOk : Bool) : Request × String :=
  (handleConfirmRequest t,
    if postOk then "You have selected: $\x7bselectedTariff.name\x7d"
    else "Failed to save your selection")

/-- C4 (counterexample) -- the claim names the endpoint `/api/user/tariff`,
but the request `handleConfirm` sends for the concrete tariff
`{id: 2, name: "Green Energy"}` goes to `/api/user/teriff`, a different
path. -/
theorem C4_counterexample_endpoint_misspelt :
    (handleConfirm ⟨2, "Green Energy"⟩ false).1.url = "/api/user/teriff" ∧
    (handleConfirm ⟨2, "Green Energy"⟩ false).1.url ≠ "/api/user/tariff" := by
  constructor
  · rfl
  · decide

/-- C4 (amended) -- when the user confirms a selected tariff, the page
sends a POST request to `/api/user/teriff` (sic) whose body carries the
selected tariff's id under `tariffId`, and when that request fails the
failure surfaces as the browser alert `"Failed to save your selection"`. -/
theorem C4_amended_confirm_request_and_alert (t : Tariff) (postOk : Bool) :
    (handleConfirm t postOk).1.method = "POST" ∧
    (handleConfirm t postOk).1.url = "/api/user/teriff" ∧
    (handleConfirm t postOk).1.body = .json [("tariffId", .num t.id)] ∧
    (postOk = false →
      (handleConfirm t postOk).2 = "Failed to save your selection") := by
  refine ⟨rfl, rfl, rfl, ?_⟩
  intro h
  simp [handleConfirm, h]

/-- Witness for C4 (amended): confirming the concrete tariff
`{id: 1, name: "Standard Tariff"}` with a failing POST alerts
`"Failed to save your selection"`. -/
theorem C4_amended_witness :
    (handleConfirm ⟨1, "Standard Tariff"⟩ false).2
      = "Failed to save your selection" :=
  (C4_amended_confirm_request_and_alert ⟨1, "Standard Tariff"⟩ false).2.2.2 rfl

/-! ## `PropertyManagerDashboard`
(green-energy-frontend/src/pages/PropertyManagerDashboard.jsx) -/

/-- A property as the dashboard displays it and as `addProperty` returns
it. -/
structure PMProperty where
  property_id : String
  name : String
  shortcode : String
  energy_usage : String
deriving DecidableEq, Repr

/-- `validate()`: the error map built from the two form fields.  Note the
source checks `propertyId.trim()` for presence but the raw
`propertyId.length` for the length bound, and `providerCode.trim()` for
presence but the raw `providerCode` against `^[A-Za-z0-9]+$`. -/
def pmValidate (propertyId providerCode : String) : List (String × String) :=
  (if jsTrim propertyId = "" then
     [("propertyId", "Property ID is required")]
   else if jsLength propertyId < 4 then
     [("propertyId", "Too short — must be at least 4 characters")]
   else []) ++
  (if jsTrim providerCode = "" then
     [("providerCode", "Provider code is required")]
   else if ¬ alphanumRegexTest providerCode then
     [("providerCode", "Provider code must be alphanumeric")]
   else [])

/-- The transient state of the dashboard's form and list. -/
structure PMDashState where
  properties : List PMProperty
  propertyId : String
  providerCode : String
  errors : List (String × String)
deriving DecidableEq, Repr

/-- The outcome of the `addProperty(propertyId, providerCode)` service
call: either the property the backend returns, or a thrown error
message. -/
inductive PMAddOutcome where
  | success (p : PMProperty)
  | failure (msg : String)
deriving DecidableEq, Repr

/-- `handleSubmit(e)`: if `validate()` reports errors, stop (no service
call); otherwise call `addProperty` and, on success, append the returned
property to the list and reset both fields and the error map, or, on a
thrown error, record `err.message || "Could not add property"` under the
`submit` key.  The boolean reports whether `addProperty` was called. -/
def pmHandleSubmit (s : PMDashState) (outcome : PMAddOutcome) :
    Bool × PMDashState :=
  let newErrors := pmValidate s.propertyId s.providerCode
  if newErrors ≠ [] then
    (false, { s with errors := newErrors })
  else
    match outcome with
    | .success p =>
        (true, { properties := s.properties ++ [p]
                 propertyId := ""
                 providerCode := ""
                 errors := [] })
    | .failure msg =>
        (true, { s with errors :=
          [("submit", if msg ≠ "" then msg else "Could not add property")] })

/-- `dropWhile` is the identity on a list none of whose elements satisfy
the predicate. -/
theorem dropWhile_eq_self_of_none {α : Type} (p : α → Bool) (l : List α)
    (h : ∀ a ∈ l, p a = false) : l.dropWhile p = l := by
  cases l with
  | nil => rfl
  | cons a t =>
      rw [List.dropWhile_cons]
      simp [h a (List.mem_cons_self a t)]

/-- A character accepted by `^[A-Za-z0-9]+$` is not ECMAScript
whitespace. -/
theorem alphanum_not_whitespace (c : Char)
    (h : isAsciiAlphanum c = true) : jsIsWhitespace c = false := by
  cases hw : jsIsWhitespace c with
  | false => rfl
  | true =>
      exfalso
      unfold jsIsWhitespace at hw
      simp only [Bool.or_eq_true, decide_eq_true_eq] at hw
      rcases hw with ((((h1 | h1) | h1) | h1) | h1) | h1 <;>
        (subst h1; revert h; decide)

/-- A string passing `alphanumRegexTest` is unchanged by JavaScript
`trim`, and in particular has a non-empty trim. -/
theorem alphanum_trim_eq_self (s : String)
    (h : alphanumRegexTest s = true) : jsTrim s = s := by
  unfold alphanumRegexTest at h
  simp only [Bool.and_eq_true, decide_eq_true_eq, List.all_eq_true] at h
  obtain ⟨hne, hall⟩ := h
  have hnws : ∀ c ∈ s.toList, jsIsWhitespace c = false := fun c hc =>
    alphanum_not_whitespace c (hall c hc)
  unfold jsTrim jsTrimList
  rw [dropWhile_eq_self_of_none _ _ hnws,
      dropWhile_eq_self_of_none _ _ (fun c hc =>
        hnws c (List.mem_reverse.mp hc)),
      List.reverse_reverse]
  cases s with
  | mk data => rfl

/-- A string passing `alphanumRegexTest` is non-empty. -/
theorem alphanum_ne_empty (s : String)
    (h : alphanumRegexTest s = true) : s ≠ "" := by
  unfold alphanumRegexTest at h
  simp only [Bool.and_eq_true, decide_eq_true_eq] at h
  intro he
  subst he
  exact h.1 rfl

/-- `validate()` reports no error exactly when the trimmed Property ID is
non-empty, the raw Property ID is at least 4 characters long, and the
Provider Code matches `^[A-Za-z0-9]+$` (which makes its trim non-empty
automatically). -/
theorem pmValidate_eq_nil_iff (pid code : String) :
    pmValidate pid code = [] ↔
      (jsTrim pid ≠ "" ∧ 4 ≤ jsLength pid ∧
        alphanumRegexTest code = true) := by
  unfold pmValidate
  constructor
  · intro h
    rw [List.append_eq_nil] at h
    obtain ⟨h1, h2⟩ := h
    constructor
    · intro hpid
      rw [if_pos hpid] at h1
      exact List.cons_ne_nil _ _ h1
    constructor
    · by_contra hlen
      have hpid : ¬ jsTrim pid = "" := by
        intro hpid
        rw [if_pos hpid] at h1
        exact List.cons_ne_nil _ _ h1
      rw [if_neg hpid, if_pos (Nat.lt_of_not_le hlen)] at h1
      exact List.cons_ne_nil _ _ h1
    · by_contra hcode
      have hct : ¬ jsTrim code = "" := by
        intro hct
        rw [if_pos hct] at h2
        exact List.cons_ne_nil _ _ h2
      rw [if_neg hct, if_pos hcode] at h2
      exact List.cons_ne_nil _ _ h2
  · rintro ⟨h1, h2, h3⟩
    have hct : jsTrim code ≠ "" := by
      rw [alphanum_trim_eq_self code h3]
      exact alphanum_ne_empty code h3
    rw [if_neg h1, if_neg (Nat.not_lt.mpr h2), if_neg hct,
        if_neg (by simp [h3])]
    rfl

/-- C5 (counterexample) -- submitting with Property ID `"ab  "` (raw length
4, trimmed length 2) and Provider Code `"AB12"` does call `addProperty`,
although the trimmed Property ID is shorter than 4 characters: the source
checks `propertyId.length`, not the trimmed length the claim states. -/
theorem C5_counterexample_untrimmed_length :
    (pmHandleSubmit ⟨[], "ab  ", "AB12", []⟩
        (.success ⟨"9999", "New Prop", "NP", "0 kWh"⟩)).1 = true ∧
    ¬ (4 ≤ jsLength (jsTrim "ab  ")) := by
  decide

/-- C5 (amended) -- submitting the add-property form calls `addProperty`
iff the trimmed Property ID is non-empty, the raw Property ID is at least
4 characters long, and the Provider Code matches `^[A-Za-z0-9]+$` (hence is
non-empty); on a successful `addProperty` the returned property is appended
to the displayed list and both input fields and the error map are reset to
empty, and on a failed `addProperty` the list is unchanged and an error
message is shown. -/
theorem C5_amended_submit_characterisation
    (s : PMDashState) (outcome : PMAddOutcome) :
    ((pmHandleSubmit s outcome).1 = true ↔
      (jsTrim s.propertyId ≠ "" ∧ 4 ≤ jsLength s.propertyId ∧
        alphanumRegexTest s.providerCode = true)) ∧
    (∀ p, (pmHandleSubmit s outcome).1 = true → outcome = .success p →
      (pmHandleSubmit s outcome).2
        = ⟨s.properties ++ [p], "", "", []⟩) ∧
    (∀ msg, (pmHandleSubmit s outcome).1 = true → outcome = .failure msg →
      ((pmHandleSubmit s outcome).2.properties = s.properties ∧
        (pmHandleSubmit s outcome).2.errors ≠ [])) ∧
    ((pmHandleSubmit s outcome).1 = false →
      (pmHandleSubmit s outcome).2.properties = s.properties) := by
  by_cases hv : pmValidate s.propertyId s.providerCode = []
  · have hcond := (pmValidate_eq_nil_iff s.propertyId s.providerCode).mp hv
    cases outcome with
    | success p =>
        refine ⟨?_, ?_, ?_, ?_⟩
        · simp [pmHandleSubmit, hv, hcond]
        · intro q _ hq
          simp only [PMAddOutcome.success.injEq] at hq
          subst hq
          simp [pmHandleSubmit, hv]
        · intro msg _ hmsg
          exact absurd hmsg (by simp)
        · intro hfalse
          unfold pmHandleSubmit at hfalse
          simp [hv] at hfalse
    | failure msg =>
        refine ⟨?_, ?_, ?_, ?_⟩
        · simp [pmHandleSubmit, hv, hcond]
        · intro q _ hq
          exact absurd hq (by simp)
        · intro m _ hm
          simp only [PMAddOutcome.failure.injEq] at hm
          subst hm
          constructor
          · simp [pmHandleSubmit, hv]
          · simp [pmHandleSubmit, hv]
        · intro hfalse
          unfold pmHandleSubmit at hfalse
          simp [hv] at hfalse
  · have hcond := hv ∘ (pmValidate_eq_nil_iff s.propertyId s.providerCode).mpr
    refine ⟨?_, ?_, ?_, ?_⟩
    · constructor
      · intro htrue
        unfold pmHandleSubmit at htrue
        simp [hv] at htrue
      · intro hc
        exact absurd ⟨hc.1, hc.2.1, hc.2.2⟩ hcond
    · intro p htrue _
      unfold pmHandleSubmit at htrue
      simp [hv] at htrue
    · intro msg htrue _
      unfold pmHandleSubmit at htrue
      simp [hv] at htrue
    · intro _
      simp [pmHandleSubmit, hv]

/-- Witness for C5 (amended): submitting with Property ID `"9999"` and
Provider Code `"AB12"` and a successful `addProperty` returning the
property `{9999, New Prop, NP, 0 kWh}` appends it to the empty list and
resets the form. -/
theorem C5_amended_witness :
    (pmHandleSubmit ⟨[], "9999", "AB12", []⟩
        (.success ⟨"9999", "New Prop", "NP", "0 kWh"⟩)).2
      = ⟨[⟨"9999", "New Prop", "NP", "0 kWh"⟩], "", "", []⟩ :=
  (C5_amended_submit_characterisation ⟨[], "9999", "AB12", []⟩
      (.success ⟨"9999", "New Prop", "NP", "0 kWh"⟩)).2.1
    ⟨"9999", "New Prop", "NP", "0 kWh"⟩
    ((C5_amended_submit_characterisation ⟨[], "9999", "AB12", []⟩
        (.success ⟨"9999", "New Prop", "NP", "0 kWh"⟩)).1.mpr
      (by decide)) rfl

/-! ## `Login.handleSubmit` and `Register.handleSubmit`
(green-energy-frontend/src/pages/Login.jsx; Register.jsx, the version with
backend registration) -/

/-- What a form submission does before any network traffic: either set an
on-screen error string and stop, or proceed to a network request. -/
inductive SubmitStep where
  | errorMsg (msg : String)
  | network (req : Request)
deriving DecidableEq, Repr

/-- The request `Register.handleSubmit` sends:
`POST http://localhost:8000/auth/register` with a JSON body of the e-mail
and password (no role). -/
def registerRequest (email password : String) : Request :=
  { method := "POST"
    url := "http://localhost:8000/auth/register"
    contentType := some "application/json"
    body := .json [("email", .str email), ("password", .str password)] }

/-- The validation prefix of `Login.handleSubmit`: empty e-mail or password
sets `"Email and password are required."`; an e-mail failing
`^\S+@\S+\.\S+$` sets `"Enter a valid email."`; otherwise `loginUser` is
called. -/
def loginHandleSubmitStep (base email password : String) : SubmitStep :=
  if email = "" || password = "" then
    .errorMsg "Email and password are required."
  else if ¬ emailRegexTest email then
    .errorMsg "Enter a valid email."
  else
    .network (loginUserRequest base email password)

/-- The validation prefix of `Register.handleSubmit`: an empty full name,
e-mail or password sets `"All fields are required."`; an e-mail failing the
regex sets `"Enter a valid email."`; otherwise the register request is
sent. -/
def registerHandleSubmitStep (fullName email password : String) :
    SubmitStep :=
  if fullName = "" || email = "" || password = "" then
    .errorMsg "All fields are required."
  else if ¬ emailRegexTest email then
    .errorMsg "Enter a valid email."
  else
    .network (registerRequest email password)

/-- C6 -- neither login nor registration makes a network request unless
every required field is non-empty and the e-mail matches
`^\S+@\S+\.\S+$`; an empty field yields
`"Email and password are required."` (login) resp.
`"All fields are required."` (register), and a regex failure yields
`"Enter a valid email."`. -/
theorem C6_form_validation_gates_network
    (base fullName email password : String) :
    ((∃ r, loginHandleSubmitStep base email password = .network r) ↔
      (email ≠ "" ∧ password ≠ "" ∧ emailRegexTest email = true)) ∧
    (email = "" ∨ password = "" →
      loginHandleSubmitStep base email password
        = .errorMsg "Email and password are required.") ∧
    (email ≠ "" → password ≠ "" → emailRegexTest email = false →
      loginHandleSubmitStep base email password
        = .errorMsg "Enter a valid email.") ∧
    ((∃ r, registerHandleSubmitStep fullName email password = .network r) ↔
      (fullName ≠ "" ∧ email ≠ "" ∧ password ≠ "" ∧
        emailRegexTest email = true)) ∧
    (fullName = "" ∨ email = "" ∨ password = "" →
      registerHandleSubmitStep fullName email password
        = .errorMsg "All fields are required.") ∧
    (fullName ≠ "" → email ≠ "" → password ≠ "" →
      emailRegexTest email = false →
      registerHandleSubmitStep fullName email password
        = .errorMsg "Enter a valid email.") := by
  unfold loginHandleSubmitStep registerHandleSubmitStep
  by_cases hf : fullName = "" <;> by_cases he : email = "" <;>
    by_cases hp : password = "" <;>
    cases hr : emailRegexTest email <;>
    simp [hf, he, hp, hr]

/-- Witness for C6: an empty login e-mail blocks the request with
`"Email and password are required."`; the non-e-mail string
`"not-an-email"` blocks login with `"Enter a valid email."`; an empty
register e-mail blocks registration with `"All fields are required."`. -/
theorem C6_form_validation_witness :
    loginHandleSubmitStep "http://localhost:8000" "" "pw"
      = .errorMsg "Email and password are required." ∧
    loginHandleSubmitStep "http://localhost:8000" "not-an-email" "pw"
      = .errorMsg "Enter a valid email." ∧
    registerHandleSubmitStep "Ann Smith" "" "pw"
      = .errorMsg "All fields are required." := by
  refine ⟨?_, ?_, ?_⟩
  · exact (C6_form_validation_gates_network "http://localhost:8000" ""
      "" "pw").2.1 (Or.inl rfl)
  · exact (C6_form_validation_gates_network "http://localhost:8000" ""
      "not-an-email" "pw").2.2.1 (by decide) (by decide) (by decide)
  · exact (C6_form_validation_gates_network "http://localhost:8000"
      "Ann Smith" "" "pw").2.2.2.2.1 (Or.inr (Or.inl rfl))

/-! ## Per-action request traces (claim C7) -/

/-- The request `Login.checkUserRole` sends:
`GET http://localhost:8000/auth/me` with the stored bearer token. -/
def authMeRequest (token : String) : Request :=
  { method := "GET"
    url := "http://localhost:8000/auth/me"
    authBearer := some token }

/-- The request `SelectRole.handleSelect` sends:
`PUT http://localhost:8000/auth/update-role` with a JSON `{role}` body and
the stored bearer token. -/
def updateRoleRequest (token role : String) : Request :=
  { method := "PUT"
    url := "http://localhost:8000/auth/update-role"
    contentType := some "application/json"
    authBearer := some token
    body := .json [("role", .str role)] }

/-- The requests one login form submission sends, in order.  `loginOk` is
whether the `loginUser` call resolved (ok response with a JSON body): only
then does `handleSubmit` go on to call `checkUserRole`, which sends one
further request; `tok` is the token `checkUserRole` reads back from
storage. -/
def loginSubmitTrace (base email password tok : String) (loginOk : Bool) :
    List Request :=
  match loginHandleSubmitStep base email password with
  | .errorMsg _ => []
  | .network req => req :: (if loginOk then [authMeRequest tok] else [])

/-- The requests one registration form submission sends. -/
def registerSubmitTrace (fullName email password : String) : List Request :=
  match registerHandleSubmitStep fullName email password with
  | .errorMsg _ => []
  | .network req => [req]

/-- The requests one role-selection click sends: none when no truthy token
is stored, otherwise the single update-role PUT. -/
def selectRoleTrace (st : Storage) (role : String) : List Request :=
  if ¬ jsTruthy (st.getItem "access_token") then []
  else [updateRoleRequest ((st.getItem "access_token").getD "") role]

/-- The requests one tariff confirmation click sends. -/
def confirmTariffTrace (t : Tariff) : List Request :=
  [handleConfirmRequest t]

/-- The request `propertyService.addProperty` sends:
`POST http://localhost:8000/properties` with a JSON body of the two form
fields and the stored bearer token. -/
def addPropertyRequest (token propertyId providerCode : String) : Request :=
  { method := "POST"
    url := "http://localhost:8000/properties"
    contentType := some "application/json"
    authBearer := some token
    body := .json [("property_id", .str propertyId),
                   ("provider_code", .str providerCode)] }

/-- The requests one add-property submission of
`PropertyManagerDashboard` sends. -/
def pmSubmitTrace (tok : String) (s : PMDashState) : List Request :=
  if pmValidate s.propertyId s.providerCode ≠ [] then []
  else [addPropertyRequest tok s.propertyId s.providerCode]

/-! ## Identifier resolution (claims C8 and C9)

The undefined-variable claims are about JavaScript scoping: an identifier
reference either resolves somewhere along the scope chain (function
locals, module scope, browser globals) or evaluation throws a
`ReferenceError`.  For each component concerned we transcribe (a) the
names its module scope declares (imports plus top-level declarations of
the same module), and (b) the identifiers the component references that
are not bound inside the component itself (its own `const`s, state
variables, handlers and parameters are excluded because they always
resolve).  Resolution then checks membership in module scope plus the
browser globals the code relies on. -/

/-- The browser/ECMAScript globals this codebase references:
`Object`, `console`, `alert`, plus `window.name` (a global string, which is
why `useState(name)` in `PortfolioList` is not itself a
`ReferenceError`). -/
def jsGlobals : List String :=
  ["Object", "JSON", "console", "alert", "fetch", "localStorage",
   "window", "name", "Error", "Date", "URLSearchParams", "setTimeout"]

/-- An identifier reference resolves iff it is declared in the module
scope or is a browser global. -/
def resolvesIn (moduleScope : List String) (ident : String) : Bool :=
  ident ∈ moduleScope ++ jsGlobals

/-- Module scope of green-energy-frontend/src/AddProperty.jsx: the imports
`useState` and `axios` and the top-level declarations `AddProperty` and
`styles`. -/
def addPropertyPageModuleScope : List String :=
  ["useState", "axios", "AddProperty", "styles"]

/-- Identifiers referenced by the `AddProperty` component of
AddProperty.jsx that are not bound inside the component (the component
binds `form`, `setForm`, `errors`, `setErrors`, `success`, `setSuccess`,
`validateField`, `handleChange`, `handleSubmit` and the parameters of its
inner functions): `useState` in the state hooks, `Object`, `alert`,
`axios` and `console` in `handleSubmit`, and `styles` throughout the
render. -/
def addPropertyPageFreeRefs : List String :=
  ["useState", "axios", "styles", "Object", "console", "alert"]

/-- Module scope of the `AddProperty` document inside
green-energy-frontend/src/pages/Manager.jsx: imports `React`, `useState`,
`axios`; top-level declarations `AddProperty` and `styles`. -/
def managerAddPropertyModuleScope : List String :=
  ["React", "useState", "axios", "AddProperty", "styles"]

/-- Identifiers referenced by Manager.jsx's `AddProperty` component that
are not bound inside the component (it binds `form`, `setForm`, `errors`,
`setErrors`, `success`, `setSuccess`, `validate`, `updateField`,
`handleSubmit` and inner parameters): `useState`, `Object`, `axios`,
`console` in the handlers and `styles` in the render. -/
def managerAddPropertyFreeRefs : List String :=
  ["useState", "axios", "styles", "Object", "console"]

/-- Module scope of green-energy-frontend/src/pages/TariffOptions.jsx:
imports `useEffect`, `useState`, `Link`, `axios`, `AuthLayout`; top-level
declaration `TariffOption`. -/
def tariffOptionModuleScope : List String :=
  ["useEffect", "useState", "Link", "axios", "AuthLayout", "TariffOption"]

/-- Identifiers referenced by the `TariffOption` component that are not
bound inside the component (it binds `tariffs`, `setTariffs`, `loading`,
`setLoading`, `error`, `setError`, `selectedTariff`, `setSelectedTariff`,
`fetchTariffs`, `handleSelect`, `handleConfirm` and inner parameters):
the hooks and imports, `console` and `alert` in the handlers, and --
in the success render -- `tarrofs`, where the fetched list is held in the
state variable `tariffs`. -/
def tariffOptionFreeRefs : List String :=
  ["useEffect", "useState", "axios", "console", "alert", "AuthLayout",
   "Link", "tarrofs"]

/-- Module scope of the `PortfolioList` document inside Manager.jsx:
imports `useEffect`, `useState`, `axios`, `useNavigate`; top-level
declaration `PortfolioList`. -/
def portfolioListModuleScope : List String :=
  ["useEffect", "useState", "axios", "useNavigate", "PortfolioList"]

/-- Identifiers referenced by the `PortfolioList` component that are not
bound inside the component (it binds `properties`, `setProperties`,
`search`, `sortSearch`, `sortBy`, `setSortBy`, `page`, `setPage`,
`totalPages`, `setTotalPages`, `loading`, `setLoading`, `navigate`,
`fetchPrperties`, `handleAddProperty` and inner parameters): the hooks and
imports, `name` and `console`, plus `fetchPoperties` (the effect calls
this misspelling of `fetchPrperties`) and `nav` (`handleAddProperty` calls
`nav` but only `navigate` is bound). -/
def portfolioListFreeRefs : List String :=
  ["useState", "useEffect", "axios", "useNavigate", "console", "name",
   "fetchPoperties", "nav"]

/-! ## The `TariffOption` render (claim C9) -/

/-- What the tariff page shows. -/
inductive TariffView where
  | loadingView
  | errorView (msg : String)
  | thrown (err : String)
  | tariffList (shown : List Tariff)
deriving DecidableEq, Repr

/-- Resolving one identifier reference: a `ReferenceError` is thrown when
the identifier is nowhere in the scope chain. -/
def lookupIdent (scope : List String) (ident : String) : Except String Unit :=
  if ident ∈ scope then .ok ()
  else .error ("ReferenceError: " ++ ident ++ " is not defined")

/-- The full scope chain of the `TariffOption` component body: its local
bindings, then the module scope, then the globals. -/
def tariffOptionScopeChain : List String :=
  ["tariffs", "setTariffs", "loading", "setLoading", "error", "setError",
   "selectedTariff", "setSelectedTariff", "fetchTariffs", "handleSelect",
   "handleConfirm"] ++ tariffOptionModuleScope ++ jsGlobals

/-- The success branch of `TariffOption`'s render: the JSX first evaluates
`tarrofs.map(...)`, so it resolves the identifier `tarrofs`; only if that
resolution succeeded could the fetched list be shown. -/
def tariffOptionSuccessRender (tariffs : List Tariff) : TariffView :=
  match lookupIdent tariffOptionScopeChain "tarrofs" with
  | .error e => .thrown e
  | .ok _ => .tariffList tariffs

/-- `TariffOption`'s render dispatch: the loading view while `loading`,
the error view when `error` is truthy, and otherwise the success
branch. -/
def tariffOptionRender (loading : Bool) (error : String)
    (tariffs : List Tariff) : TariffView :=
  if loading then .loadingView
  else if error ≠ "" then .errorView error
  else tariffOptionSuccessRender tariffs

/-- The shape every non-login user action must have under the amended C7:
it sends at most one request, and (vacuously, then) never repeats one. -/
def singleShot (t : List Request) : Prop :=
  t.length ≤ 1 ∧ t.Nodup

/-- The form state of the two `AddProperty` components (both use the same
nine fields; the number inputs hold strings, `solar_panels` a boolean). -/
structure AddPropertyForm where
  property_type : String
  location : String
  tariff_type : String
  average_monthly_kwh : String
  solar_panels : Bool
  occupancy : String
  maintenance_cost : String
  budget : String
  carbon_goal : String
deriving DecidableEq, Repr

/-- The JSON body `axios.post(..., form)` serialises for either
`AddProperty` form. -/
def addPropertyFormJson (f : AddPropertyForm) : List (String × JsValue) :=
  [("property_type", .str f.property_type),
   ("location", .str f.location),
   ("tariff_type", .str f.tariff_type),
   ("average_monthly_kwh", .str f.average_monthly_kwh),
   ("solar_panels", .jsbool f.solar_panels),
   ("occupancy", .str f.occupancy),
   ("maintenance_cost", .str f.maintenance_cost),
   ("budget", .str f.budget),
   ("carbon_goal", .str f.carbon_goal)]

/-- `Object.values(errors).some((msg) => msg && msg !== "")` of
AddProperty.jsx (Manager.jsx's variant uses `.some((e) => e)`, the same
test on strings): some error value is a non-empty string. -/
def hasValidationErrors (errors : List (String × String)) : Bool :=
  errors.any (fun kv => kv.2 ≠ "")

/-- The requests one submission of green-energy-frontend/src/AddProperty.jsx
sends: none when the live-validation error map has a non-empty message
(the handler alerts and returns), otherwise the single
`POST http://localhost:8000/properties/add` with the form as JSON. -/
def addPropertyPageSubmitTrace (errors : List (String × String))
    (f : AddPropertyForm) : List Request :=
  if hasValidationErrors errors then []
  else [{ method := "POST"
          url := "http://localhost:8000/properties/add"
          body := .json (addPropertyFormJson f) }]

/-- The requests one submission of Manager.jsx's `AddProperty` sends: none
when the error map has a truthy message (the handler clears the success
text and returns), otherwise the single
`POST http://localhost:8000/add-property` with the form as JSON. -/
def managerAddPropertySubmitTrace (errors : List (String × String))
    (f : AddPropertyForm) : List Request :=
  if hasValidationErrors errors then []
  else [{ method := "POST"
          url := "http://localhost:8000/add-property"
          body := .json (addPropertyFormJson f) }]

/-- The form state of frontend/src/pages/UpdateProperty.jsx. -/
structure UpdatePropertyFrontendForm where
  name : String
  address : String
  type : String
  rooms : String
  tariff : String
deriving DecidableEq, Repr

/-- The requests one submission of frontend/src/pages/UpdateProperty.jsx
sends: always exactly the single `PUT http://127.0.0.1:8000/properties/1`
with the JSON form body and the `token`-key bearer header (`tok` is the
header's token part). -/
def updatePropertyFrontendSubmitTrace (tok : String)
    (f : UpdatePropertyFrontendForm) : List Request :=
  [{ method := "PUT"
     url := "http://127.0.0.1:8000/properties/1"
     contentType := some "application/json"
     authBearer := some tok
     body := .json [("name", .str f.name), ("address", .str f.address),
                    ("type", .str f.type), ("rooms", .str f.rooms),
                    ("tariff", .str f.tariff)] }]

/-- The form state of the green-energy `UpdateProperty` page (the PATCH
version). -/
structure UpdatePropertyForm where
  address : String
  location : String
  sq_footage : String
  tariff_id : String
  portfolio_id : String
  mpan_id : String
deriving DecidableEq, Repr

/-- The JSON body the green-energy `UpdateProperty` serialises. -/
def updatePropertyFormJson (f : UpdatePropertyForm) :
    List (String × JsValue) :=
  [("address", .str f.address), ("location", .str f.location),
   ("sq_footage", .str f.sq_footage), ("tariff_id", .str f.tariff_id),
   ("portfolio_id", .str f.portfolio_id), ("mpan_id", .str f.mpan_id)]

/-- The requests one submission of the green-energy `UpdateProperty` page
sends: always exactly the single
`PATCH API_BASE_URL/properties/{id}` with the JSON form body and the
stored bearer token. -/
def updatePropertySubmitTrace (base id tok : String)
    (f : UpdatePropertyForm) : List Request :=
  [{ method := "PATCH"
     url := base ++ "/properties/" ++ id
     contentType := some "application/json"
     authBearer := some tok
     body := .json (updatePropertyFormJson f) }]

/-- The names green-energy-frontend/src/services/authService.js defines
and exports. -/
def authServiceExports : List String :=
  ["loginUser", "saveToken", "getToken", "clearToken", "isAuthenticated"]

/-- The requests one submission of pages/Register.jsx (the role-defaulting
variant) sends.  Its validation prefix is identical to the modelled
register handler; past validation it calls `registerUser`, an import that
`authService.js` does not define, so the call fails before any fetch and
no request is ever sent (the guarded branch records what a real
`registerUser` would send). -/
def registerPageSubmitTrace (fullName email password : String) :
    List Request :=
  match registerHandleSubmitStep fullName email password with
  | .errorMsg _ => []
  | .network _ =>
      match lookupIdent authServiceExports "registerUser" with
      | .error _ => []
      | .ok _ => [registerRequest email password]

/-- The full scope chain of Manager.jsx's `PortfolioList` component body:
its local bindings, then the module scope, then the globals. -/
def portfolioListScopeChain : List String :=
  ["properties", "setProperties", "search", "sortSearch", "sortBy",
   "setSortBy", "page", "setPage", "totalPages", "setTotalPages",
   "loading", "setLoading", "navigate", "fetchPrperties",
   "handleAddProperty"] ++ portfolioListModuleScope ++ jsGlobals

/-- The requests a `PortfolioList` user action (a search, sort or page
change re-running the effect) sends: the effect calls `fetchPoperties`,
which does not resolve (only `fetchPrperties` is bound), so it throws
before any request; the guarded branch records the `GET /api/properties`
the bound `fetchPrperties` would send. -/
def portfolioListEffectTrace : List Request :=
  match lookupIdent portfolioListScopeChain "fetchPoperties" with
  | .error _ => []
  | .ok _ => [{ method := "GET", url := "/api/properties" }]

/-- The data fetch mounting `TariffOption` triggers:
`axios.get("/api/tariffs")`. -/
def tariffOptionMountTrace : List Request :=
  [{ method := "GET", url := "/api/tariffs" }]

/-- The data fetch mounting `PropertyManagerDashboard` triggers:
`fetchUserContext()`, a `GET http://localhost:8000/context` with the
stored bearer token. -/
def pmDashboardMountTrace (tok : String) : List Request :=
  [{ method := "GET"
     url := "http://localhost:8000/context"
     authBearer := some tok }]

/-- The data fetch mounting `UsageLogsViewer` triggers:
`GET API_BASE_URL/properties/{id}/usage` with the stored bearer token. -/
def usageLogsMountTrace (base id tok : String) : List Request :=
  [{ method := "GET"
     url := base ++ "/properties/" ++ id ++ "/usage"
     authBearer := some tok }]

/-- The data fetch mounting `PropertyAnalytics` triggers:
`GET API_BASE_URL/properties/{propertyId}/analytics` with the stored
bearer token. -/
def propertyAnalyticsMountTrace (base propertyId tok : String) :
    List Request :=
  [{ method := "GET"
     url := base ++ "/properties/" ++ propertyId ++ "/analytics"
     authBearer := some tok }]

/-- The data fetch mounting `DeviceAnalytics` triggers:
`GET API_BASE_URL/devices/{deviceId}/usage` with the stored bearer
token. -/
def deviceAnalyticsMountTrace (base deviceId tok : String) : List Request :=
  [{ method := "GET"
     url := base ++ "/devices/" ++ deviceId ++ "/usage"
     authBearer := some tok }]

/-- The data fetch mounting the green-energy `UpdateProperty` page
triggers: `GET API_BASE_URL/properties/{id}` with the stored bearer
token. -/
def updatePropertyMountTrace (base id tok : String) : List Request :=
  [{ method := "GET"
     url := base ++ "/properties/" ++ id
     authBearer := some tok }]

/-- The data fetch mounting `DailyEnergy` triggers: nothing when no truthy
token is stored (the effect navigates to `/login` and returns), otherwise
the single `POST http://localhost:8000/scenario/run` with the stored
bearer token. -/
def dailyEnergyMountTrace (st : Storage) : List Request :=
  if ¬ jsTruthy (st.getItem "access_token") then []
  else [{ method := "POST"
          url := "http://localhost:8000/scenario/run"
          contentType := some "application/json"
          authBearer := some ((st.getItem "access_token").getD "") }]

/-- An empty trace is single-shot. -/
theorem singleShot_nil : singleShot [] :=
  ⟨by simp, List.nodup_nil⟩

/-- A one-request trace is single-shot. -/
theorem singleShot_singleton (r : Request) : singleShot [r] :=
  ⟨by simp, List.nodup_singleton r⟩

/-- C7 (counterexample) -- a single user action can trigger two network
requests: submitting the login form with `a@b.c` / `pw` and a successful
login sends the `/auth/login` POST and then the `/auth/me` GET, so the
claim's bound of at most one request per action fails. -/
theorem C7_counterexample_login_sends_two :
    (loginSubmitTrace "http://localhost:8000" "a@b.c" "pw" "tok" true).length
        = 2 ∧
    ¬ ((loginSubmitTrace "http://localhost:8000" "a@b.c" "pw" "tok"
          true).length ≤ 1) := by
  decide

/-- C7 (amended) -- every request-sending user action of the source sends
its requests sequentially with no request repeated (in particular no
failed request is retried): each trace is duplicate-free; the login
submission sends at most two requests (the second one only after the
first succeeded), and every other action -- both register variants, role
selection, tariff confirmation, the three add-property and both
update-property submissions, a `PortfolioList` interaction, and the data
fetch each page mount triggers -- sends at most one. -/
theorem C7_amended_traces_nodup_and_bounded
    (base fullName email password tok role providerCode : String)
    (idp pid did : String)
    (loginOk : Bool) (st stD : Storage) (t : Tariff) (s : PMDashState)
    (errsA errsM : List (String × String)) (fA fM : AddPropertyForm)
    (fUF : UpdatePropertyFrontendForm) (fU : UpdatePropertyForm) :
    (loginSubmitTrace base email password tok loginOk).Nodup ∧
    (loginSubmitTrace base email password tok loginOk).length ≤ 2 ∧
    (loginOk = false →
      (loginSubmitTrace base email password tok loginOk).length ≤ 1) ∧
    (registerSubmitTrace fullName email password).length ≤ 1 ∧
    (selectRoleTrace st role).length ≤ 1 ∧
    (confirmTariffTrace t).length = 1 ∧
    (pmSubmitTrace providerCode s).length ≤ 1 ∧
    singleShot (addPropertyPageSubmitTrace errsA fA) ∧
    singleShot (managerAddPropertySubmitTrace errsM fM) ∧
    singleShot (updatePropertyFrontendSubmitTrace tok fUF) ∧
    singleShot (updatePropertySubmitTrace base idp tok fU) ∧
    singleShot (registerPageSubmitTrace fullName email password) ∧
    "registerUser" ∉ authServiceExports ∧
    portfolioListEffectTrace = [] ∧
    singleShot tariffOptionMountTrace ∧
    singleShot (pmDashboardMountTrace tok) ∧
    singleShot (usageLogsMountTrace base idp tok) ∧
    singleShot (propertyAnalyticsMountTrace base pid tok) ∧
    singleShot (deviceAnalyticsMountTrace base did tok) ∧
    singleShot (updatePropertyMountTrace base idp tok) ∧
    singleShot (dailyEnergyMountTrace stD) := by
  refine ⟨?_, ?_, ?_, ?_, ?_, ?_, ?_, ?_, ?_, ?_, ?_, ?_, ?_, ?_, ?_,
    ?_, ?_, ?_, ?_, ?_, ?_⟩
  · unfold loginSubmitTrace
    cases hstep : loginHandleSubmitStep base email password with
    | errorMsg m => exact List.nodup_nil
    | network req =>
        have hreq : req = loginUserRequest base email password := by
          unfold loginHandleSubmitStep at hstep
          split_ifs at hstep
          injection hstep with h
          exact h.symm
        subst hreq
        cases loginOk with
        | false => simp
        | true =>
            have hne : loginUserRequest base email password
                ≠ authMeRequest tok := by
              intro h
              have hm := congrArg Request.method h
              simp [loginUserRequest, authMeRequest] at hm
            simp [hne]
  · unfold loginSubmitTrace
    cases loginHandleSubmitStep base email password <;>
      cases loginOk <;> simp
  · intro hfail
    subst hfail
    unfold loginSubmitTrace
    cases loginHandleSubmitStep base email password <;> simp
  · unfold registerSubmitTrace
    cases registerHandleSubmitStep fullName email password <;> simp
  · unfold selectRoleTrace
    split <;> simp
  · rfl
  · unfold pmSubmitTrace
    split <;> simp
  · unfold addPropertyPageSubmitTrace
    split
    · exact singleShot_nil
    · exact singleShot_singleton _
  · unfold managerAddPropertySubmitTrace
    split
    · exact singleShot_nil
    · exact singleShot_singleton _
  · exact singleShot_singleton _
  · exact singleShot_singleton _
  · unfold registerPageSubmitTrace
    cases registerHandleSubmitStep fullName email password with
    | errorMsg m => exact singleShot_nil
    | network req =>
        have hid : lookupIdent authServiceExports "registerUser"
            = .error "ReferenceError: registerUser is not defined" := rfl
        rw [hid]
        exact singleShot_nil
  · decide
  · rfl
  · exact singleShot_singleton _
  · exact singleShot_singleton _
  · exact singleShot_singleton _
  · exact singleShot_singleton _
  · exact singleShot_singleton _
  · exact singleShot_singleton _
  · unfold dailyEnergyMountTrace
    split
    · exact singleShot_nil
    · exact singleShot_singleton _

/-- Witness for C7 (amended): the two-request login trace of a successful
login is duplicate-free; a failed login stops after one request; a
concrete valid AddProperty submission sends a single unrepeated
request. -/
theorem C7_amended_witness :
    (loginSubmitTrace "http://localhost:8000" "a@b.c" "pw" "tok"
        true).Nodup ∧
    (loginSubmitTrace "http://localhost:8000" "a@b.c" "pw" "tok"
        false).length ≤ 1 ∧
    singleShot (addPropertyPageSubmitTrace []
        ⟨"Flat", "Leeds", "Fixed", "120", false, "2", "50", "900",
          "Reduce"⟩) := by
  refine ⟨?_, ?_, ?_⟩
  · exact (C7_amended_traces_nodup_and_bounded "http://localhost:8000" ""
      "a@b.c" "pw" "tok" "" "" "1" "1" "1" true [] [] ⟨1, ""⟩
      ⟨[], "", "", []⟩ [] []
      ⟨"Flat", "Leeds", "Fixed", "120", false, "2", "50", "900", "Reduce"⟩
      ⟨"Flat", "Leeds", "Fixed", "120", false, "2", "50", "900", "Reduce"⟩
      ⟨"", "", "", "", ""⟩ ⟨"", "", "", "", "", ""⟩).1
  · exact (C7_amended_traces_nodup_and_bounded "http://localhost:8000" ""
      "a@b.c" "pw" "tok" "" "" "1" "1" "1" false [] [] ⟨1, ""⟩
      ⟨[], "", "", []⟩ [] []
      ⟨"Flat", "Leeds", "Fixed", "120", false, "2", "50", "900", "Reduce"⟩
      ⟨"Flat", "Leeds", "Fixed", "120", false, "2", "50", "900", "Reduce"⟩
      ⟨"", "", "", "", ""⟩ ⟨"", "", "", "", "", ""⟩).2.2.1 rfl
  · exact (C7_amended_traces_nodup_and_bounded "http://localhost:8000" ""
      "a@b.c" "pw" "tok" "" "" "1" "1" "1" true [] [] ⟨1, ""⟩
      ⟨[], "", "", []⟩ [] []
      ⟨"Flat", "Leeds", "Fixed", "120", false, "2", "50", "900", "Reduce"⟩
      ⟨"Flat", "Leeds", "Fixed", "120", false, "2", "50", "900", "Reduce"⟩
      ⟨"", "", "", "", ""⟩ ⟨"", "", "", "", "", ""⟩).2.2.2.2.2.2.2.1

/-- C8 (counterexample) -- the claim that some execution path of an
`AddProperty` component references an undefined variable is false: every
identifier either `AddProperty` component references outside its own
bindings resolves in its module scope or the browser globals, so no path
of either component can raise a `ReferenceError` for an undefined
variable. -/
theorem C8_counterexample_addproperty_all_resolve :
    addPropertyPageFreeRefs.all (resolvesIn addPropertyPageModuleScope)
        = true ∧
    managerAddPropertyFreeRefs.all (resolvesIn managerAddPropertyModuleScope)
        = true := by
  decide

/-- C8 (amended) -- no execution path of either `AddProperty` component
references an undefined variable; the undefined-identifier references of
the repository are elsewhere: `TariffOption`'s success render references
`tarrofs` and `PortfolioList` references `fetchPoperties` and `nav`, none
of which resolve in their scopes. -/
theorem C8_amended_undefined_refs_are_elsewhere :
    addPropertyPageFreeRefs.all (resolvesIn addPropertyPageModuleScope)
        = true ∧
    managerAddPropertyFreeRefs.all (resolvesIn managerAddPropertyModuleScope)
        = true ∧
    ("tarrofs" ∈ tariffOptionFreeRefs ∧
      resolvesIn tariffOptionModuleScope "tarrofs" = false) ∧
    ("fetchPoperties" ∈ portfolioListFreeRefs ∧
      resolvesIn portfolioListModuleScope "fetchPoperties" = false) ∧
    ("nav" ∈ portfolioListFreeRefs ∧
      resolvesIn portfolioListModuleScope "nav" = false) := by
  decide

/-- C9 -- once loading is over and no error is set, the success render
references the undefined identifier `tarrofs` instead of the `tariffs`
state, so it always throws a `ReferenceError`, and no render of the page
ever displays a tariff list. -/
theorem C9_success_render_reference_error (tariffs : List Tariff) :
    tariffOptionRender false "" tariffs
        = .thrown "ReferenceError: tarrofs is not defined" ∧
    (∀ (loading : Bool) (error : String) (shown : List Tariff),
      tariffOptionRender loading error tariffs ≠ .tariffList shown) := by
  constructor
  · rfl
  · intro loading error shown
    unfold tariffOptionRender tariffOptionSuccessRender
    cases loading with
    | true => simp
    | false =>
        by_cases he : error = ""
        · have hmem : "tarrofs" ∉ tariffOptionScopeChain := by decide
          simp [he, lookupIdent, hmem]
        · simp [he]

/-! ## `SelectRole.handleSelect`
(green-energy-frontend/src/pages/SelectRole.jsx, the version with the
backend update) -/

/-- How the `fetch` of the update-role PUT ends: an ok response, a non-ok
response (`handleSelect` then throws `'Failed to update role'`), or a
rejected fetch; the last two both land in the catch block. -/
inductive FetchOutcome where
  | ok
  | httpError
  | networkError
deriving DecidableEq, Repr

/-- `handleSelect(role)`, translated from the source: with no truthy
stored token, navigate to `/login` and send nothing; otherwise send the
update-role PUT; on an ok response store the role under `userRole` and
navigate to the role's dashboard (no navigation for any other role
string); on any failure the catch block runs `localStorage.clear()` and
navigates to `/login`.  Result: requests sent, storage after, navigation
target. -/
def selectRoleHandleSelect (st : Storage) (role : String)
    (outcome : FetchOutcome) : List Request × Storage × Option String :=
  if ¬ jsTruthy (st.getItem "access_token") then
    ([], st, some "/login")
  else
    let req := updateRoleRequest ((st.getItem "access_token").getD "") role
    match outcome with
    | .ok =>
        ([req], st.setItem "userRole" role,
          if role = "Homeowner" then some "/homeowner-dashboard"
          else if role = "PropertyManager" then some "/manager-dashboard"
          else none)
    | .httpError => ([req], Storage.clear st, some "/login")
    | .networkError => ([req], Storage.clear st, some "/login")

/-- C10 -- `handleSelect` writes the `userRole` key only after the
update-role PUT returned an ok response; on any failure of that request
every `localStorage` entry (the stored access token included) is removed
and the user is redirected to `/login`, so a failed role selection logs
the user out rather than leaving the stored state unchanged. -/
theorem C10_select_role_failure_logs_out (st : Storage) (role : String)
    (outcome : FetchOutcome) :
    (jsTruthy (st.getItem "access_token") = true → outcome = .ok →
      (selectRoleHandleSelect st role outcome).2.1
        = st.setItem "userRole" role) ∧
    (jsTruthy (st.getItem "access_token") = true → outcome ≠ .ok →
      ((∀ k, ((selectRoleHandleSelect st role outcome).2.1).getItem k
          = none) ∧
        ((selectRoleHandleSelect st role outcome).2.1).getItem
          "access_token" = none ∧
        (selectRoleHandleSelect st role outcome).2.2 = some "/login")) ∧
    (jsTruthy (st.getItem "access_token") = false →
      (selectRoleHandleSelect st role outcome)
        = ([], st, some "/login")) ∧
    (outcome ≠ .ok →
      ((selectRoleHandleSelect st role outcome).2.1).getItem "userRole"
          = st.getItem "userRole" ∨
        ((selectRoleHandleSelect st role outcome).2.1).getItem "userRole"
          = none) := by
  refine ⟨?_, ?_, ?_, ?_⟩
  · intro htok hok
    subst hok
    simp [selectRoleHandleSelect, htok]
  · intro htok hne
    cases outcome with
    | ok => exact absurd rfl hne
    | httpError =>
        refine ⟨fun k => ?_, ?_, ?_⟩ <;>
          simp [selectRoleHandleSelect, htok, Storage.clear, Storage.getItem]
    | networkError =>
        refine ⟨fun k => ?_, ?_, ?_⟩ <;>
          simp [selectRoleHandleSelect, htok, Storage.clear, Storage.getItem]
  · intro htok
    simp [selectRoleHandleSelect, htok]
  · intro hne
    by_cases htok : jsTruthy (st.getItem "access_token") = true
    · right
      cases outcome with
      | ok => exact absurd rfl hne
      | httpError =>
          simp [selectRoleHandleSelect, htok, Storage.clear, Storage.getItem]
      | networkError =>
          simp [selectRoleHandleSelect, htok, Storage.clear, Storage.getItem]
    · left
      have htok' : jsTruthy (st.getItem "access_token") = false :=
        Bool.eq_false_iff.mpr htok
      simp [selectRoleHandleSelect, htok']

/-- Witness for C10: with `access_token ↦ "tok"` and `userRole ↦ "Old"`
stored, a failing update-role PUT for `"Homeowner"` leaves an empty
storage (token gone) and navigates to `/login`. -/
theorem C10_select_role_witness :
    (∀ k, ((selectRoleHandleSelect
        [("access_token", "tok"), ("userRole", "Old")] "Homeowner"
        .httpError).2.1).getItem k = none) ∧
    ((selectRoleHandleSelect
        [("access_token", "tok"), ("userRole", "Old")] "Homeowner"
        .httpError).2.1).getItem "access_token" = none ∧
    (selectRoleHandleSelect
        [("access_token", "tok"), ("userRole", "Old")] "Homeowner"
        .httpError).2.2 = some "/login" :=
  (C10_select_role_failure_logs_out
      [("access_token", "tok"), ("userRole", "Old")] "Homeowner"
      .httpError).2.1 (by decide) (by decide)

/-- Witness for C9: with the empty fetched list, the settled render is the
thrown `ReferenceError`. -/
theorem C9_success_render_witness :
    tariffOptionRender false "" ([] : List Tariff)
      = .thrown "ReferenceError: tarrofs is not defined" :=
  (C9_success_render_reference_error []).1
